import Mathlib

/-
Verification development for the computational-model pipeline of the
cursor-telemetry repository (components/activity-logger/companion/computational-model).

The Python sources are embedded shallowly:
  - dict fields that may be absent, null, or present are modelled by `PyField`;
  - JSON payloads are modelled by the inductive `Json`;
  - Python floats are modelled by the rationals;
  - fallible code paths return `Except String`;
  - the third-party k-means entry point (scikit-learn StandardScaler.fit_transform
    followed by KMeans.fit_predict) is an abstract parameter constrained by
    `SklearnFitPredictContract`, stating its documented validation behaviour.
-/

namespace CTel

/-- A Python dict field: missing key, key present with value None, or a value. -/
inductive PyField (α : Type) where
  | absent
  | null
  | val (a : α)
deriving Repr, DecidableEq

/-- Python `d.get(k)`: missing and None both read back as None. -/
def pyGet {α : Type} : PyField α → Option α
  | .absent => none
  | .null => none
  | .val a => some a

/-- Python `d.get(k, default)`: the default fires only when the key is missing;
an explicit None value is returned as None. -/
def pyGetD {α : Type} (f : PyField α) (d : α) : Option α :=
  match f with
  | .absent => some d
  | .null => none
  | .val a => some a

/-- JSON values, as produced by `json.loads` (Python None is `null`). -/
inductive Json where
  | null
  | bool (v : Bool)
  | num (v : Int)
  | str (s : String)
  | arr (items : List Json)
  | obj (fields : List (String × Json))
deriving Repr

/-- Python truthiness of a JSON value. -/
def pyTruthy : Json → Bool
  | .null => false
  | .bool v => v
  | .num v => v != 0
  | .str s => s != ""
  | .arr [] => false
  | .arr (_ :: _) => true
  | .obj [] => false
  | .obj (_ :: _) => true

/-- Python `d.get(k)` on a parsed JSON object: a missing key reads as None. -/
def pyDictGet (fields : List (String × Json)) (k : String) : Json :=
  match fields.lookup k with
  | some v => v
  | none => Json.null

/-- Python `a or b` on JSON values: the first truthy operand, else `b`. -/
def pyOrJson (a b : Json) : Json :=
  if pyTruthy a then a else b

/-- Lookup of a key inside a JSON object, none when absent or not an object. -/
def jsonGet (j : Json) (k : String) : Option Json :=
  match j with
  | .obj fields => fields.lookup k
  | _ => none

/-- A joined event row, as returned by the Gateway event+prompt join
(database_connector.get_events_with_prompts). Only the fields read by the
modelled pipeline stages are kept. -/
structure Event where
  id : PyField Int
  type : PyField String
  timestamp : PyField String
  session_id : PyField String
  prompt_id : PyField Int
  prompt_text : PyField String
deriving Repr, DecidableEq

/-- A prompt row from the prompts store. `context_files_json` holds the parsed
JSON value of the stored payload (json.loads of a stored string is represented
by supplying the parsed value directly); `none` is a missing or null column. -/
structure Prompt where
  id : PyField Int
  timestamp : PyField String
  context_files_json : Option Json
deriving Repr

/- ------------------------------------------------------------------
   Stable sorting, modelling Python sorted()/list.sort (Timsort is stable:
   equal keys keep their original relative order). Insertion sort below is
   stable for the same reason: an element moves left past strictly greater
   keys only.
   ------------------------------------------------------------------ -/

/-- Insert `x` after every already-placed element whose key is not greater. -/
def insertLe {α : Type} (le : α → α → Bool) (x : α) : List α → List α
  | [] => [x]
  | y :: ys => if le y x then y :: insertLe le x ys else x :: y :: ys

/-- Stable sort by a boolean total preorder, modelling Python list.sort. -/
def pySort {α : Type} (le : α → α → Bool) : List α → List α
  | [] => []
  | x :: xs => insertLe le x (pySort le xs)

/-- Lexicographic order on code-point sequences. -/
def listCharLe : List Char → List Char → Bool
  | [], _ => true
  | _ :: _, [] => false
  | c :: cs, d :: ds =>
    if c.val < d.val then true
    else if d.val < c.val then false
    else listCharLe cs ds

/-- Python string comparison: lexicographic on code points (also the SQLite
TEXT ordering, since memcmp on UTF-8 bytes agrees with code-point order). -/
def strLe (a b : String) : Bool := listCharLe a.data b.data

/- ------------------------------------------------------------------
   scripts/calculate_cp.py
   ------------------------------------------------------------------ -/

/-- Entry handling in the plain-list and `files` shapes of
extract_context_files: `f if isinstance(f, str) else f.get('path') or
f.get('fileName')`. Calling .get on anything that is neither a string nor a
dict raises AttributeError. -/
def listEntryValue : Json → Except String Json
  | .str s => .ok (.str s)
  | .obj fields => .ok (pyOrJson (pyDictGet fields "path") (pyDictGet fields "fileName"))
  | _ => .error "AttributeError"

/-- Entry handling in the `attachedFiles` and `codebaseFiles` shapes:
`f.get('path') or f.get('fileName')` with no string passthrough. -/
def dictEntryValue : Json → Except String Json
  | .obj fields => .ok (pyOrJson (pyDictGet fields "path") (pyDictGet fields "fileName"))
  | _ => .error "AttributeError"

/-- calculate_cp.py, extract_context_files (lines 20-49), the files
computation inside the try block: the list shape and the attachedFiles /
codebaseFiles / files object shapes are flattened. Iterating a non-list value
where a file list is expected raises (chars or keys have no .get, scalars are
not iterable), hence the error cases. -/
def extract_files_result (context : Json) : Except String (List Json) :=
  match context with
  | .arr items => items.mapM listEntryValue
  | .obj fields =>
    if (fields.lookup "attachedFiles").isSome then
      match pyDictGet fields "attachedFiles" with
      | .arr items => items.mapM dictEntryValue
      | _ => .error "TypeError"
    else if (fields.lookup "codebaseFiles").isSome then
      match pyDictGet fields "codebaseFiles" with
      | .arr items => items.mapM dictEntryValue
      | _ => .error "TypeError"
    else if (fields.lookup "files").isSome then
      match pyDictGet fields "files" with
      | .arr items => items.mapM listEntryValue
      | _ => .error "TypeError"
    else .ok []
  | _ => .ok []

/-- The outer shell of lines 20-49: the falsy guard, the exception handler
returning [], the falsy-entry filter. -/
def extract_context_files (context_files_json : Option Json) : List Json :=
  match context_files_json with
  | none => []
  | some context =>
    if pyTruthy context = false then []
    else
      match extract_files_result context with
      | .error _ => []
      | .ok files => files.filter pyTruthy

/-- Membership of an extracted context entry in the diff-file set: Python
`f in diff_set` where the diff set holds strings, so only a string entry can
match. -/
def jsonInStrs (f : Json) (diff_files : List String) : Bool :=
  match f with
  | .str s => diff_files.contains s
  | _ => false

/-- The dict returned by calculate_cp. The empty-context branch of the source
omits the timestamp and intersection keys, modelled by `none`. -/
structure CpRecord where
  prompt_id : Option Int
  timestamp : Option (Option String)
  cp : ℚ
  context_file_count : Nat
  diff_file_count : Nat
  intersection_count : Nat
  context_files : List Json
  diff_files : List String
  intersection : Option (List Json)
  unused_context_files : List Json
deriving Repr

/-- calculate_cp.py, calculate_cp (lines 52-88). -/
def calculate_cp (prompt : Prompt) (diff_files : List String) : CpRecord :=
  let context_files := extract_context_files prompt.context_files_json
  match context_files with
  | [] =>
    { prompt_id := pyGet prompt.id
      timestamp := none
      cp := 0
      context_file_count := 0
      diff_file_count := diff_files.length
      intersection_count := 0
      context_files := []
      diff_files := diff_files
      intersection := none
      unused_context_files := [] }
  | _ :: _ =>
    let intersection := context_files.filter (fun f => jsonInStrs f diff_files)
    let unused := context_files.filter (fun f => !jsonInStrs f diff_files)
    { prompt_id := pyGet prompt.id
      timestamp := some (pyGet prompt.timestamp)
      cp := (intersection.length : ℚ) / (context_files.length : ℚ)
      context_file_count := context_files.length
      diff_file_count := diff_files.length
      intersection_count := intersection.length
      context_files := context_files
      diff_files := diff_files
      intersection := some intersection
      unused_context_files := unused }

/-- Modelled from the spec: the set-based context-precision formula of the
specification, `cp(C,D) = 0` when C is empty and `|C cap D| / |C|` with set
intersection and set cardinality otherwise. Used only to compare against the
source computation. -/
def cp_spec_set (context diff : List String) : ℚ :=
  if context.dedup = [] then 0
  else ((context.dedup.filter (fun s => diff.contains s)).length : ℚ) / (context.dedup.length : ℚ)

/-- Python min over a list of floats; min of an empty sequence raises. -/
def pyMinList : List ℚ → Except String ℚ
  | [] => .error "min arg is an empty sequence"
  | x :: xs => .ok (xs.foldl (fun a b => if b < a then b else a) x)

/-- Python max over a list of floats; max of an empty sequence raises. -/
def pyMaxList : List ℚ → Except String ℚ
  | [] => .error "max arg is an empty sequence"
  | x :: xs => .ok (xs.foldl (fun a b => if a < b then b else a) x)

/-- The statistics dict of calculate_baseline_cp; the empty-input branch
returns an empty distribution dict. -/
structure BaselineStats where
  average : ℚ
  median : ℚ
  min : ℚ
  max : ℚ
  count : Nat
  distribution : List (String × Nat)
deriving Repr

/-- The five distribution buckets of calculate_baseline_cp (lines 131-137). -/
def cpDistribution (cp_scores : List ℚ) : List (String × Nat) :=
  [ ("0.0-0.2", cp_scores.countP (fun cp => decide (0 ≤ cp) && decide (cp < 1/5)))
  , ("0.2-0.4", cp_scores.countP (fun cp => decide (1/5 ≤ cp) && decide (cp < 2/5)))
  , ("0.4-0.6", cp_scores.countP (fun cp => decide (2/5 ≤ cp) && decide (cp < 3/5)))
  , ("0.6-0.8", cp_scores.countP (fun cp => decide (3/5 ≤ cp) && decide (cp < 4/5)))
  , ("0.8-1.0", cp_scores.countP (fun cp => decide (4/5 ≤ cp) && decide (cp ≤ 1))) ]

/-- calculate_cp.py, the statistics portion of calculate_baseline_cp
(lines 112-147), as a function of the collected cp scores. The sorted-list
indexing of the source is in range for every non-empty input, so `getD` with
default 0 never actually falls back. -/
def calculate_baseline_stats (cp_scores : List ℚ) : Except String BaselineStats :=
  match cp_scores with
  | [] =>
    .ok { average := 0, median := 0, min := 0, max := 0, count := 0, distribution := [] }
  | _ :: _ => do
    let cp_scores_sorted := pySort (fun a b => decide (a ≤ b)) cp_scores
    let n := cp_scores.length
    let median0 := cp_scores_sorted.getD (n / 2) 0
    let median :=
      if n % 2 = 0 ∧ n > 1 then
        (cp_scores_sorted.getD (n / 2 - 1) 0 + cp_scores_sorted.getD (n / 2) 0) / 2
      else median0
    let mn ← pyMinList cp_scores
    let mx ← pyMaxList cp_scores
    .ok { average := cp_scores.sum / (n : ℚ)
          median := median
          min := mn
          max := mx
          count := n
          distribution := cpDistribution cp_scores }

/-- Modelled from the spec: the standard even/odd-count midpoint median over
the sorted scores, used only to compare against the source computation. -/
def spec_median (scores : List ℚ) : ℚ :=
  let s := pySort (fun a b => decide (a ≤ b)) scores
  let n := scores.length
  if n % 2 = 1 then s.getD (n / 2) 0
  else (s.getD (n / 2 - 1) 0 + s.getD (n / 2) 0) / 2

/- ------------------------------------------------------------------
   The single-prompt CP operation (calculate_cp.py main, lines 172-188),
   over an abstract prompts store.
   ------------------------------------------------------------------ -/

/-- Sort key for `ORDER BY timestamp ASC`: SQL NULLs sort before strings. -/
def promptTsLe (a b : Prompt) : Bool :=
  match pyGet a.timestamp, pyGet b.timestamp with
  | none, _ => true
  | some _, none => false
  | some s, some t => strLe s t

/-- database_connector.get_prompts with the default ordering: all prompt rows
ordered by timestamp ascending, truncated to the limit when one is given. -/
def db_get_prompts (store : List Prompt) (limit : Option Nat) : List Prompt :=
  let sorted := pySort promptTsLe store
  match limit with
  | some m => sorted.take m
  | none => sorted

/-- calculate_cp.py main, single-prompt branch (lines 172-188): fetch
prompts with `limit=1`, search that result for the requested id, report
`Prompt not found` on failure, otherwise compute the CP record over the
diff files of the prompt (the entries query is abstracted by `entries_for`). -/
def single_prompt_cp (store : List Prompt) (entries_for : Int → List String)
    (prompt_id : Int) : Except String CpRecord :=
  let prompts := db_get_prompts store (some 1)
  match prompts.find? (fun p =>
    match pyGet p.id with
    | some i => i == prompt_id
    | none => false) with
  | none => .error "Prompt not found"
  | some p => .ok (calculate_cp p (entries_for prompt_id))

/- ------------------------------------------------------------------
   sequence_processor.py, extract_sequences (lines 25-51)
   ------------------------------------------------------------------ -/

/-- Grouping key: `event.get('session_id') or 'default'` — a missing, null or
empty session id falls back to the sentinel session. -/
def session_key (e : Event) : String :=
  match pyGet e.session_id with
  | some s => if s = "" then "default" else s
  | none => "default"

/-- The grouping loop of extract_sequences (lines 34-39): a Python dict keyed
by session, iterated in insertion order, each group keeping retrieval order. -/
def group_events_by_session (events : List Event) : List (String × List Event) :=
  events.foldl (fun gs e =>
    let k := session_key e
    if (gs.lookup k).isSome then
      gs.map (fun p => if p.1 = k then (p.1, p.2 ++ [e]) else p)
    else gs ++ [(k, [e])]) []

/-- The sort key of line 44: `e.get('timestamp', '')` — the default fires only
for a missing key; an explicitly null timestamp yields Python None. -/
def py_sort_key (e : Event) : Option String :=
  pyGetD e.timestamp ""

/-- `session_events.sort(key=lambda e: e.get('timestamp', ''))`. With two or
more elements every element takes part in at least one key comparison, and any
comparison involving None raises TypeError; otherwise the sort is stable
ascending on the string keys. -/
def py_sort_events (events : List Event) : Except String (List Event) :=
  if 2 ≤ events.length ∧ events.any (fun e => (py_sort_key e).isNone) then
    .error "TypeError"
  else
    .ok (pySort (fun a b => strLe ((py_sort_key a).getD "") ((py_sort_key b).getD "")) events)

/-- sequence_processor.py, extract_sequences (lines 25-51): group by session,
sort every group by timestamp, keep the groups whose length is within the
inclusive bounds. Every group is sorted before the length filter is applied,
as in the source loop. -/
def extract_sequences (events : List Event)
    (min_sequence_length max_sequence_length : Nat) : Except String (List (List Event)) := do
  let groups := group_events_by_session events
  let sorted ← groups.mapM (fun p => py_sort_events p.2)
  return sorted.filter (fun g =>
    min_sequence_length ≤ g.length ∧ g.length ≤ max_sequence_length)

/- ------------------------------------------------------------------
   vectorizer.py
   ------------------------------------------------------------------ -/

/-- vectorizer.py, build_event_type_encoder (lines 42-50): the sorted set of
truthy event types; the position of a type in this list is its index in the
one-hot map. -/
def build_event_type_encoder (events : List Event) : List String :=
  pySort strLe
    ((events.filterMap (fun e =>
      match pyGet e.type with
      | some s => if s = "" then none else some s
      | none => none)).dedup)

/-- vectorizer.py, one_hot_encode_event_type (lines 52-60): an empty encoder
yields the empty vector; otherwise a vector over the encoder positions with a
single 1.0 at the event type position when the type is present. The encoder
list is duplicate-free by construction, so the positionwise indicator below
coincides with setting index map[event_type]. The argument is an Option since
a null event type is Python None, which is simply not in the map. -/
def one_hot_encode_event_type (event_type_map : List String) (event_type : Option String) : List ℚ :=
  if event_type_map = [] then []
  else event_type_map.map (fun et => if event_type = some et then (1 : ℚ) else 0)

/-- The dict returned by vectorize_event (lines 154-161). -/
structure VectorizedEvent where
  event_id : Option Int
  timestamp : Option String
  event_type : Option String
  event_type_vector : List ℚ
  prompt_text : Option String
  combined_vector : List ℚ
deriving Repr

/-- vectorizer.py, vectorize_event (lines 134-161). The prompt embedding is
always None in the source (the embedding call is a deferred placeholder), so
the semantic sub-vector is always the 768-dimensional zero placeholder and
vectorization is total. -/
def vectorize_event (event_type_map : List String) (event : Event)
    (prompt_text : Option String) : VectorizedEvent :=
  let event_type_vector := one_hot_encode_event_type event_type_map (pyGetD event.type "")
  let combined_vector := event_type_vector ++ List.replicate 768 (0 : ℚ)
  { event_id := pyGet event.id
    timestamp := pyGet event.timestamp
    event_type := pyGet event.type
    event_type_vector := event_type_vector
    prompt_text := prompt_text
    combined_vector := combined_vector }

/-- Replace-or-append update of the prompts map (Python dict assignment). -/
def promptsMapSet (m : List (Int × Option String)) (k : Int) (v : Option String) :
    List (Int × Option String) :=
  if (m.lookup k).isSome then
    m.map (fun p => if p.1 = k then (k, v) else p)
  else m ++ [(k, v)]

/-- sequence_processor.py, the prompts-map builder of vectorize_sequences
(lines 60-65): `prompts_map[prompt_id] = {'text': event.get('prompt_text')}`
for every event with a truthy prompt id and a prompt_text key. -/
def build_prompts_map (sequences : List (List Event)) : List (Int × Option String) :=
  (sequences.flatten).foldl (fun m e =>
    match pyGet e.prompt_id with
    | some pid =>
      if pid ≠ 0 ∧ e.prompt_text ≠ PyField.absent then
        promptsMapSet m pid (pyGet e.prompt_text)
      else m
    | none => m) []

/-- vectorizer.py, vectorize_sequence (lines 163-178). -/
def vectorize_sequence (event_type_map : List String) (events : List Event)
    (prompts_map : List (Int × Option String)) : List VectorizedEvent :=
  events.map (fun e =>
    let prompt_text : Option String :=
      match pyGet e.prompt_id with
      | some pid =>
        if pid ≠ 0 then
          match prompts_map.lookup pid with
          | some t => t
          | none => none
        else none
      | none => none
    vectorize_event event_type_map e prompt_text)

/- ------------------------------------------------------------------
   scripts/cluster_sequences.py
   ------------------------------------------------------------------ -/

/-- The pad-and-truncate of cluster_with_kmeans (lines 98-101): append zeros
up to the target length, then slice to the target length. -/
def pad_flat (flat : List ℚ) (target : Nat) : List ℚ :=
  (flat ++ List.replicate (target - flat.length) 0).take target

/-- Whether an Except value is the error case. -/
def isErr {ε α : Type} : Except ε α → Bool
  | .error _ => true
  | .ok _ => false

/-- Documented validation behaviour of the abstracted scikit-learn pipeline
(StandardScaler.fit_transform followed by KMeans(n_clusters).fit_predict) on
a non-empty rectangular float matrix with at least one feature and at least
one requested cluster: it raises exactly when there are fewer samples than
requested clusters, and otherwise returns one label per sample. -/
def SklearnFitPredictContract (fp : List (List ℚ) → Nat → Except String (List Nat)) : Prop :=
  ∀ (data : List (List ℚ)) (k : Nat), data ≠ [] → 1 ≤ k →
    (∀ row ∈ data, 1 ≤ row.length) →
    ((data.length < k → isErr (fp data k) = true) ∧
     (k ≤ data.length → ∃ labels, fp data k = .ok labels ∧ labels.length = data.length))

/-- One concrete behaviour satisfying the scikit-learn contract, used to
instantiate the abstract pipeline on concrete runs. -/
def sk_fit_predict_model (data : List (List ℚ)) (k : Nat) : Except String (List Nat) :=
  if data.length < k then .error "n samples should be at least n clusters"
  else .ok (List.replicate data.length 0)

/-- cluster_sequences.py, cluster_with_kmeans (lines 86-113): max over an
empty batch raises, indexing `sequences[0][0]` of an empty first sequence
raises, a zero-width feature matrix is rejected by the scaler, and otherwise
the flattened padded matrix is handed to the scikit-learn pipeline. -/
def cluster_with_kmeans (fit_predict : List (List ℚ) → Nat → Except String (List Nat))
    (sequences : List (List (List ℚ))) (n_clusters : Nat) : Except String (List Nat) :=
  match sequences with
  | [] => .error "ValueError max arg is an empty sequence"
  | s0 :: _ =>
    match s0 with
    | [] => .error "IndexError list index out of range"
    | v0 :: _ =>
      let max_length := (sequences.map List.length).foldl Nat.max 0
      let vector_dim := v0.length
      if vector_dim = 0 then .error "ValueError at least 1 feature is required"
      else
        let flattened := sequences.map (fun s => pad_flat s.flatten (max_length * vector_dim))
        fit_predict flattened n_clusters

/-- The cluster-organisation loop of main (lines 209-213): a Python dict from
label to the indices carrying it, keys in first-appearance order, each group
in index order. -/
def add_to_clusters (clusters : List (Nat × List Nat)) (label idx : Nat) :
    List (Nat × List Nat) :=
  if (clusters.lookup label).isSome then
    clusters.map (fun p => if p.1 = label then (p.1, p.2 ++ [idx]) else p)
  else clusters ++ [(label, [idx])]

/-- Groups of sequence indices by cluster label (main, lines 209-213). -/
def group_by_label (labels : List Nat) : List (Nat × List Nat) :=
  labels.enum.foldl (fun cs p => add_to_clusters cs p.2 p.1) []

/-- cluster_sequences.py, find_representative_sequence (lines 116-133): the
member index whose sequence length is closest to the cluster mean length,
first occurrence winning ties; the sequence lengths are read off the batch
(indices are in range in every real run, so `getD` never falls back). -/
def find_representative_sequence (cluster_sequences : List Nat) (seq_lens : List Nat) :
    Option Nat :=
  match cluster_sequences with
  | [] => none
  | i0 :: rest =>
    let avg : ℚ := ((cluster_sequences.map (fun i => (seq_lens.getD i 0 : ℚ))).sum) /
      (cluster_sequences.length : ℚ)
    some (rest.foldl (fun b i =>
      if |(seq_lens.getD i 0 : ℚ) - avg| < |(seq_lens.getD b 0 : ℚ) - avg| then i else b) i0)

/-- A Cluster record of the behavioral library (main, lines 222-231). The
representative sequence is stored through its index; the top-event-types
metadata reads per-event dicts that are not part of the modelled vector batch
and is omitted. -/
structure Cluster where
  cluster_id : Nat
  frequency : Nat
  representative_idx : Option Nat
  sequence_indices : List Nat
  avg_length : ℚ
deriving Repr

/-- The library-building loop of main (lines 216-231): groups of size at
least min_size, in dict order, turned into Cluster records. -/
def build_behavioral_library_entries (labels : List Nat) (min_size : Nat)
    (seq_lens : List Nat) : List Cluster :=
  ((group_by_label labels).filter (fun p => min_size ≤ p.2.length)).map (fun p =>
    { cluster_id := p.1
      frequency := p.2.length
      representative_idx := find_representative_sequence p.2 seq_lens
      sequence_indices := p.2
      avg_length := ((p.2.map (fun i => (seq_lens.getD i 0 : ℚ))).sum) / (p.2.length : ℚ) })

/-- The output dict of cluster_sequences.py main (lines 234-243), restricted
to the modelled fields. -/
structure ClusterOutput where
  n_clusters : Nat
  min_size : Nat
  total_sequences : Nat
  clusters_found : Nat
  cluster_assignments : List Nat
  behavioral_library : List Cluster
deriving Repr

/-- cluster_sequences.py main (lines 198-251) on an already-extracted vector
batch, kmeans method: a clustering exception is caught and the process exits
with status 1 (modelled as the error case); otherwise the behavioral library
is organised and emitted. -/
def cluster_main (fit_predict : List (List ℚ) → Nat → Except String (List Nat))
    (sequences : List (List (List ℚ))) (n_clusters min_size : Nat) :
    Except String ClusterOutput :=
  match cluster_with_kmeans fit_predict sequences n_clusters with
  | .error e => .error e
  | .ok labels =>
    let lib := build_behavioral_library_entries labels min_size (sequences.map List.length)
    .ok { n_clusters := n_clusters
          min_size := min_size
          total_sequences := sequences.length
          clusters_found := lib.length
          cluster_assignments := labels
          behavioral_library := lib }

/- ------------------------------------------------------------------
   sequence_processor.py, build_behavioral_library (lines 137-180)
   ------------------------------------------------------------------ -/

/-- sequence_processor.py, build_behavioral_library (lines 137-180). The
clustering subprocess (cluster_sequences.py invoked over JSON) is abstracted
by `cluster_fn`, returning the parsed stdout or the propagated
CalledProcessError. When no sequences are extracted the function returns the
error dict of lines 146-149; otherwise it vectorizes, clusters, runs the
no-op CP filter loop (lines 158-172, which re-emits every cluster unchanged)
and assembles the final artifact. The min_cp parameter is accepted and unused,
as in the source stub. -/
def build_behavioral_library (cluster_fn : List (List VectorizedEvent) → Except String Json)
    (workspace_path : Option String) (min_cp : Option ℚ) (events : List Event) :
    Except String Json := do
  let _ := min_cp
  let sequences ← extract_sequences events 3 50
  match sequences with
  | [] =>
    return Json.obj [("error", Json.str "No sequences found"), ("library", Json.arr [])]
  | _ :: _ =>
    let event_type_map := build_event_type_encoder sequences.flatten
    let prompts_map := build_prompts_map sequences
    let vectorized := sequences.map (fun seq => vectorize_sequence event_type_map seq prompts_map)
    let clustering_result ← cluster_fn vectorized
    let libJ := match jsonGet clustering_result "behavioral_library" with
      | some v => v
      | none => Json.arr []
    match libJ with
    | .arr clusters =>
      let behavioral_library := clusters
      let metadata := match jsonGet clustering_result "metadata" with
        | some v => v
        | none => Json.obj []
      return Json.obj
        [ ("workspace_path", match workspace_path with
            | some w => Json.str w
            | none => Json.null)
        , ("total_sequences", Json.num sequences.length)
        , ("clusters_found", Json.num behavioral_library.length)
        , ("behavioral_library", Json.arr behavioral_library)
        , ("clustering_metadata", metadata) ]
    | _ => .error "TypeError"

/- ==================================================================
   Theorems
   ================================================================== -/

/-- C10: when the collected score list of a baseline run is empty,
calculate_baseline_cp returns all-zero statistics with count 0 and an empty
distribution instead of reaching the min/max of an empty sequence. -/
theorem baseline_stats_empty_scores :
  calculate_baseline_stats [] =
    .ok { average := 0, median := 0, min := 0, max := 0, count := 0, distribution := [] } := rfl

lemma one_hot_length (m : List String) (t : Option String) :
    (one_hot_encode_event_type m t).length = m.length := by
  unfold one_hot_encode_event_type
  split
  · simp [*]
  · simp

lemma one_hot_zeros (m : List String) (t : Option String)
    (h : ∀ s, t = some s → s ∉ m) :
    one_hot_encode_event_type m t = List.replicate m.length 0 := by
  unfold one_hot_encode_event_type
  split
  · simp [*]
  · rw [List.eq_replicate_iff]
    refine ⟨by simp, ?_⟩
    intro b hb
    rcases List.mem_map.mp hb with ⟨et, het, rfl⟩
    have : ¬ t = some et := fun hc => h et hc het
    simp [this]

/-- C4: vectorize_event concatenates the one-hot event-type sub-vector with
the fixed-length all-zero semantic placeholder (no embedding is obtainable in
this code path), the one-hot part is all zeros when the event type is absent
from the encoder, and the function is total (vectorization never aborts). -/
theorem vectorize_event_shape (m : List String) (e : Event) (t : Option String) :
  (vectorize_event m e t).combined_vector
      = (vectorize_event m e t).event_type_vector ++ List.replicate 768 0 ∧
  (vectorize_event m e t).event_type_vector
      = one_hot_encode_event_type m (pyGetD e.type "") ∧
  (vectorize_event m e t).combined_vector.length = m.length + 768 ∧
  ((∀ s, pyGetD e.type "" = some s → s ∉ m) →
    (vectorize_event m e t).event_type_vector = List.replicate m.length 0) := by
  refine ⟨rfl, rfl, ?_, ?_⟩
  · show (one_hot_encode_event_type m (pyGetD e.type "") ++ List.replicate 768 (0 : ℚ)).length
        = m.length + 768
    rw [List.length_append, List.length_replicate, one_hot_length]
  · intro h
    exact one_hot_zeros m _ h

/-- An event of a type unknown to the encoder, used to instantiate C4. -/
def c4_event : Event :=
  { id := .val 9, type := .val "session_start", timestamp := .absent,
    session_id := .absent, prompt_id := .absent, prompt_text := .absent }

/-- Witness for C4 at a concrete encoder and event with an unknown type. -/
theorem vectorize_event_shape_witness :
  (vectorize_event ["file_edit"] c4_event none).event_type_vector = List.replicate 1 0 ∧
  (vectorize_event ["file_edit"] c4_event none).combined_vector.length = 1 + 768 := by
  have h := vectorize_event_shape ["file_edit"] c4_event none
  refine ⟨h.2.2.2 ?_, h.2.2.1⟩
  intro s hs
  simp [c4_event, pyGetD] at hs
  subst hs
  decide

/-- An event whose timestamp column is explicitly null. -/
def c5_event_null : Event :=
  { id := .absent, type := .absent, timestamp := .null,
    session_id := .val "s1", prompt_id := .absent, prompt_text := .absent }

/-- A later event of the same session with a string timestamp. -/
def c5_event_later : Event :=
  { id := .absent, type := .absent, timestamp := .val "2024-01-02T00:00:00Z",
    session_id := .val "s1", prompt_id := .absent, prompt_text := .absent }

/-- C5: a session holding an event with an explicitly null timestamp next to
a string timestamp makes the sort key comparison raise TypeError, because
`e.get('timestamp', '')` substitutes the empty string only for a missing key,
not for a null value. The whole extraction aborts instead of treating the
null as the empty string. -/
theorem extract_sequences_null_timestamp_raises :
  extract_sequences [c5_event_null, c5_event_later] 3 50 = .error "TypeError" := rfl

/-- The earliest prompt of the C9 store. -/
def c9_p1 : Prompt :=
  { id := .val 1, timestamp := .val "2024-01-01T00:00:00Z", context_files_json := none }

/-- A prompt present in the C9 store but not first by timestamp. -/
def c9_p2 : Prompt :=
  { id := .val 2, timestamp := .val "2024-01-02T00:00:00Z", context_files_json := none }

/-- A store of two prompts. -/
def c9_store : List Prompt := [c9_p1, c9_p2]

/-- C9: the single-prompt operation fetches the prompt list with `limit=1`
and searches only that one row for the requested id, so a prompt that is
present in the store but not first in timestamp order is reported as not
found (exit 1), contradicting the intended lookup-by-id semantics. -/
theorem single_prompt_cp_misses_present_prompt :
  c9_p2 ∈ c9_store ∧ pyGet c9_p2.id = some 2 ∧
  single_prompt_cp c9_store (fun _ => []) 2 = .error "Prompt not found" := by
  refine ⟨?_, rfl, rfl⟩
  unfold c9_store
  exact List.mem_cons_of_mem _ (List.mem_cons_self _ _)

/-- The dict actually returned by build_behavioral_library when no sequences
are extracted (sequence_processor.py lines 146-149). -/
def c3_error_obj : Json :=
  Json.obj [("error", Json.str "No sequences found"), ("library", Json.arr [])]

/-- C3 counterexample: on a workspace with no events, build_behavioral_library
returns the error dict, which carries none of the five keys of the claimed
artifact shape (in particular no clusters_found at all, rather than
clusters_found = 0). -/
theorem build_behavioral_library_empty_counterexample :
  build_behavioral_library (fun _ => .error "clustering not invoked") none none [] =
      .ok c3_error_obj ∧
  jsonGet c3_error_obj "clusters_found" = none ∧
  jsonGet c3_error_obj "total_sequences" = none ∧
  jsonGet c3_error_obj "workspace_path" = none ∧
  jsonGet c3_error_obj "behavioral_library" = none ∧
  jsonGet c3_error_obj "error" = some (Json.str "No sequences found") := by
  exact ⟨rfl, rfl, rfl, rfl, rfl, rfl⟩

/-- C3 amended: whenever extraction yields zero sequences the builder returns,
without raising, the dict with an error message and an empty library list. -/
theorem build_behavioral_library_empty_shape
    (cluster_fn : List (List VectorizedEvent) → Except String Json)
    (workspace_path : Option String) (min_cp : Option ℚ) (events : List Event)
    (h : extract_sequences events 3 50 = .ok []) :
    build_behavioral_library cluster_fn workspace_path min_cp events = .ok c3_error_obj := by
  unfold build_behavioral_library
  rw [h]
  rfl

/-- Witness for the amended C3 at a concrete empty event list. -/
theorem build_behavioral_library_empty_shape_witness :
  build_behavioral_library (fun _ => .error "unused") (some "/w") none [] = .ok c3_error_obj :=
  build_behavioral_library_empty_shape (fun _ => .error "unused") (some "/w") none [] rfl

/- C7 / C1 support -/

/-- A context file entry dict holding a path string or an explicit null. -/
def mkPathEntry : Option String → Json
  | some p => .obj [("path", .str p)]
  | none => .obj [("path", .null)]

/-- The normalized view of a path list: null entries and empty strings drop. -/
def collapsePaths (paths : List (Option String)) : List String :=
  paths.filterMap (fun o =>
    match o with
    | some s => if s = "" then none else some s
    | none => none)

/-- The value `f.get('path') or f.get('fileName')` takes on a path entry. -/
def pathEntryValue : Option String → Json
  | some p => if p = "" then Json.null else Json.str p
  | none => Json.null

lemma mapM_ok_of_forall {α β : Type} (f : α → Except String β) (g : α → β) :
    ∀ (l : List α), (∀ a ∈ l, f a = .ok (g a)) → l.mapM f = .ok (l.map g) := by
  intro l
  induction l with
  | nil => intro _; rfl
  | cons x xs ih =>
    intro h
    have hx := h x (by simp)
    have ihh := ih (fun a ha => h a (by simp [ha]))
    rw [List.mapM_cons, hx, ihh]
    rfl

lemma dictEntryValue_mkPathEntry (o : Option String) :
    dictEntryValue (mkPathEntry o) = .ok (pathEntryValue o) := by
  cases o with
  | none => rfl
  | some p =>
    by_cases hp : p = ""
    · subst hp; rfl
    · simp [mkPathEntry, dictEntryValue, pyDictGet, pyOrJson, pyTruthy, pathEntryValue, hp]

lemma listEntryValue_mkPathEntry (o : Option String) :
    listEntryValue (mkPathEntry o) = .ok (pathEntryValue o) := by
  cases o with
  | none => rfl
  | some p =>
    by_cases hp : p = ""
    · subst hp; rfl
    · simp [mkPathEntry, listEntryValue, pyDictGet, pyOrJson, pyTruthy, pathEntryValue, hp]

lemma filter_pathEntries (paths : List (Option String)) :
    (paths.map pathEntryValue).filter pyTruthy = (collapsePaths paths).map Json.str := by
  induction paths with
  | nil => rfl
  | cons o rest ih =>
    cases o with
    | none => simpa [pathEntryValue, pyTruthy, collapsePaths, List.filterMap_cons] using ih
    | some p =>
      by_cases hp : p = "" <;>
        simp [pathEntryValue, pyTruthy, collapsePaths, List.filterMap_cons, hp] <;>
        simpa [collapsePaths] using ih

lemma filter_strs (paths : List String) :
    (paths.map Json.str).filter pyTruthy = (paths.filter (fun s => s != "")).map Json.str := by
  induction paths with
  | nil => rfl
  | cons p rest ih =>
    by_cases hp : p = "" <;> simp [pyTruthy, hp] <;> simpa using ih

lemma extract_context_files_ok {context : Json} {files : List Json}
    (h2 : extract_files_result context = .ok files) (h1 : pyTruthy context = true) :
    extract_context_files (some context) = files.filter pyTruthy := by
  simp [extract_context_files, h1, h2]

lemma mapM_dict_pathEntries (paths : List (Option String)) :
    (paths.map mkPathEntry).mapM dictEntryValue = .ok (paths.map pathEntryValue) := by
  induction paths with
  | nil => rfl
  | cons o rest ih =>
    rw [List.map_cons, List.map_cons, List.mapM_cons, dictEntryValue_mkPathEntry, ih]
    rfl

lemma mapM_list_pathEntries (paths : List (Option String)) :
    (paths.map mkPathEntry).mapM listEntryValue = .ok (paths.map pathEntryValue) := by
  induction paths with
  | nil => rfl
  | cons o rest ih =>
    rw [List.map_cons, List.map_cons, List.mapM_cons, listEntryValue_mkPathEntry, ih]
    rfl

lemma extract_attachedFiles_shape (paths : List (Option String)) :
    extract_context_files (some (.obj [("attachedFiles", .arr (paths.map mkPathEntry))]))
      = (collapsePaths paths).map Json.str := by
  have h2 : extract_files_result (.obj [("attachedFiles", .arr (paths.map mkPathEntry))])
      = .ok (paths.map pathEntryValue) := by
    rw [show extract_files_result (.obj [("attachedFiles", .arr (paths.map mkPathEntry))])
        = (paths.map mkPathEntry).mapM dictEntryValue from rfl, mapM_dict_pathEntries]
  rw [extract_context_files_ok h2 rfl, filter_pathEntries]

lemma extract_codebaseFiles_shape (paths : List (Option String)) :
    extract_context_files (some (.obj [("codebaseFiles", .arr (paths.map mkPathEntry))]))
      = (collapsePaths paths).map Json.str := by
  have h2 : extract_files_result (.obj [("codebaseFiles", .arr (paths.map mkPathEntry))])
      = .ok (paths.map pathEntryValue) := by
    rw [show extract_files_result (.obj [("codebaseFiles", .arr (paths.map mkPathEntry))])
        = (paths.map mkPathEntry).mapM dictEntryValue from rfl, mapM_dict_pathEntries]
  rw [extract_context_files_ok h2 rfl, filter_pathEntries]

lemma extract_files_shape (paths : List (Option String)) :
    extract_context_files (some (.obj [("files", .arr (paths.map mkPathEntry))]))
      = (collapsePaths paths).map Json.str := by
  have h2 : extract_files_result (.obj [("files", .arr (paths.map mkPathEntry))])
      = .ok (paths.map pathEntryValue) := by
    rw [show extract_files_result (.obj [("files", .arr (paths.map mkPathEntry))])
        = (paths.map mkPathEntry).mapM listEntryValue from rfl, mapM_list_pathEntries]
  rw [extract_context_files_ok h2 rfl, filter_pathEntries]

lemma extract_plain_list_shape (paths : List String) :
    extract_context_files (some (.arr (paths.map Json.str)))
      = (paths.filter (fun s => s != "")).map Json.str := by
  cases paths with
  | nil => rfl
  | cons p rest =>
    have h2 : extract_files_result (.arr ((p :: rest).map Json.str))
        = .ok ((p :: rest).map Json.str) := by
      rw [show extract_files_result (.arr ((p :: rest).map Json.str))
          = ((p :: rest).map Json.str).mapM listEntryValue from rfl]
      rw [mapM_ok_of_forall listEntryValue id ((p :: rest).map Json.str)
        (fun a ha => ?_), List.map_id]
      rcases List.mem_map.mp ha with ⟨s, _, rfl⟩
      rfl
    rw [extract_context_files_ok h2 rfl, filter_strs]

/-- The scenario prompt of the spec: attachedFiles a.py and b.py. -/
def c7_prompt : Prompt :=
  { id := .val 1, timestamp := .absent,
    context_files_json := some (.obj [("attachedFiles",
      .arr [.obj [("path", .str "a.py")], .obj [("path", .str "b.py")]])]) }

/-- C7: the scenario prompt with attachedFiles [a.py, b.py] against diff
files [a.py, c.py] yields cp 0.5 with intersection [a.py] and unused context
[b.py]; and the four legacy payload shapes (plain list, attachedFiles,
codebaseFiles, files) all normalize to the flat list of path strings with
null and empty entries dropped. -/
theorem context_files_normalization :
  (calculate_cp c7_prompt ["a.py", "c.py"]).cp = 1/2 ∧
  (calculate_cp c7_prompt ["a.py", "c.py"]).intersection = some [Json.str "a.py"] ∧
  (calculate_cp c7_prompt ["a.py", "c.py"]).unused_context_files = [Json.str "b.py"] ∧
  (∀ paths : List (Option String),
    extract_context_files (some (.obj [("attachedFiles", .arr (paths.map mkPathEntry))]))
      = (collapsePaths paths).map Json.str) ∧
  (∀ paths : List (Option String),
    extract_context_files (some (.obj [("codebaseFiles", .arr (paths.map mkPathEntry))]))
      = (collapsePaths paths).map Json.str) ∧
  (∀ paths : List (Option String),
    extract_context_files (some (.obj [("files", .arr (paths.map mkPathEntry))]))
      = (collapsePaths paths).map Json.str) ∧
  (∀ paths : List String,
    extract_context_files (some (.arr (paths.map Json.str)))
      = (paths.filter (fun s => s != "")).map Json.str) := by
  have hE : extract_context_files c7_prompt.context_files_json
      = [Json.str "a.py", Json.str "b.py"] := rfl
  refine ⟨?_, ?_, ?_, extract_attachedFiles_shape, extract_codebaseFiles_shape,
    extract_files_shape, extract_plain_list_shape⟩
  · show ((1 : Nat) : ℚ) / ((2 : Nat) : ℚ) = 1/2
    norm_num
  · rfl
  · rfl

/-- A prompt whose declared context repeats a path. -/
def c1_prompt : Prompt :=
  { id := .val 7, timestamp := .absent,
    context_files_json := some (.arr [.str "a.py", .str "a.py", .str "b.py"]) }

/-- C1 counterexample: on a context list with a duplicate entry the code
divides the multiplicity-counted intersection by the list length (2/3), while
the set-based formula of the claim gives 1/2. -/
theorem calculate_cp_set_formula_counterexample :
  extract_context_files c1_prompt.context_files_json
      = [Json.str "a.py", Json.str "a.py", Json.str "b.py"] ∧
  (calculate_cp c1_prompt ["a.py"]).cp = 2/3 ∧
  cp_spec_set ["a.py", "a.py", "b.py"] ["a.py"] = 1/2 ∧
  (2 : ℚ)/3 ≠ 1/2 := by
  refine ⟨rfl, ?_, ?_, by norm_num⟩
  · show ((2 : Nat) : ℚ) / ((3 : Nat) : ℚ) = 2/3
    norm_num
  · have hd : (["a.py", "a.py", "b.py"] : List String).dedup = ["a.py", "b.py"] := by decide
    rw [cp_spec_set, hd]
    simp

lemma filter_jsonInStrs_length (paths diff_files : List String) :
    ((paths.map Json.str).filter (fun f => jsonInStrs f diff_files)).length
      = (paths.filter (fun s => diff_files.contains s)).length := by
  induction paths with
  | nil => rfl
  | cons p rest ih =>
    by_cases hp : p ∈ diff_files <;>
      simp [jsonInStrs, hp, List.filter_cons] at ih ⊢ <;> omega

/-- C1 amended: calculate_cp returns cp 0 with zero counts on an empty
context list; otherwise cp is the number of context entries occurring among
the diff files, counted with multiplicity, divided by the context list
length; cp always lies in [0,1]; and whenever the context list is
duplicate-free the value coincides with the set-based formula of the spec. -/
theorem calculate_cp_formula (prompt : Prompt) (diff_files : List String) :
  (extract_context_files prompt.context_files_json = [] →
     (calculate_cp prompt diff_files).cp = 0 ∧
     (calculate_cp prompt diff_files).context_file_count = 0 ∧
     (calculate_cp prompt diff_files).intersection_count = 0) ∧
  (extract_context_files prompt.context_files_json ≠ [] →
     (calculate_cp prompt diff_files).cp =
       (((extract_context_files prompt.context_files_json).filter
          (fun f => jsonInStrs f diff_files)).length : ℚ) /
       ((extract_context_files prompt.context_files_json).length : ℚ)) ∧
  0 ≤ (calculate_cp prompt diff_files).cp ∧
  (calculate_cp prompt diff_files).cp ≤ 1 ∧
  (∀ paths : List String, paths.Nodup →
     extract_context_files prompt.context_files_json = paths.map Json.str →
     (calculate_cp prompt diff_files).cp = cp_spec_set paths diff_files) := by
  cases hE : extract_context_files prompt.context_files_json with
  | nil =>
    refine ⟨fun _ => ?_, fun hne => absurd rfl hne, ?_, ?_, ?_⟩
    · simp [calculate_cp, hE]
    · simp [calculate_cp, hE]
    · simp [calculate_cp, hE]
    · intro paths hnd hmap
      have hp : paths = [] := by
        cases paths with
        | nil => rfl
        | cons a l => simp at hmap
      subst hp
      simp [calculate_cp, hE, cp_spec_set]
  | cons j js =>
    have hcp : (calculate_cp prompt diff_files).cp =
        (((j :: js).filter (fun f => jsonInStrs f diff_files)).length : ℚ) /
        (((j :: js).length : Nat) : ℚ) := by
      simp [calculate_cp, hE]
    have hlen : (0 : ℚ) < (((j :: js).length : Nat) : ℚ) := by
      exact_mod_cast Nat.succ_pos js.length
    have hb : (0 : ℚ) ≤ (calculate_cp prompt diff_files).cp ∧
        (calculate_cp prompt diff_files).cp ≤ 1 := by
      rw [hcp]
      constructor
      · positivity
      · rw [div_le_one hlen]
        exact_mod_cast List.length_filter_le _ _
    refine ⟨fun h => absurd h (by simp), fun _ => hcp, hb.1, hb.2, ?_⟩
    intro paths hnd hmap
    rw [hcp, hmap]
    have hne : paths ≠ [] := by
      intro hn
      rw [hn] at hmap
      simp at hmap
    rw [cp_spec_set, List.dedup_eq_self.mpr hnd, if_neg hne]
    rw [filter_jsonInStrs_length paths diff_files]
    simp


/-- A duplicate-free context prompt used to instantiate the set-formula part. -/
def c1_nodup_prompt : Prompt :=
  { id := .val 8, timestamp := .absent,
    context_files_json := some (.arr [.str "a.py", .str "b.py"]) }

/-- Witness for the amended C1 at concrete prompts. -/
theorem calculate_cp_formula_witness :
  (0 ≤ (calculate_cp c1_prompt ["a.py"]).cp ∧ (calculate_cp c1_prompt ["a.py"]).cp ≤ 1) ∧
  (calculate_cp c1_nodup_prompt ["a.py"]).cp = cp_spec_set ["a.py", "b.py"] ["a.py"] := by
  refine ⟨⟨(calculate_cp_formula c1_prompt ["a.py"]).2.2.1,
    (calculate_cp_formula c1_prompt ["a.py"]).2.2.2.1⟩, ?_⟩
  exact (calculate_cp_formula c1_nodup_prompt ["a.py"]).2.2.2.2 ["a.py", "b.py"] (by decide) rfl

/- C8 support -/

lemma bucket_indicators_one (x : ℚ) (hx : 0 ≤ x ∧ x ≤ 1) :
    ((if (decide ((0:ℚ) ≤ x) && decide (x < 1/5)) = true then 1 else 0) +
     (if (decide ((1:ℚ)/5 ≤ x) && decide (x < 2/5)) = true then 1 else 0) +
     (if (decide ((2:ℚ)/5 ≤ x) && decide (x < 3/5)) = true then 1 else 0) +
     (if (decide ((3:ℚ)/5 ≤ x) && decide (x < 4/5)) = true then 1 else 0) +
     (if (decide ((4:ℚ)/5 ≤ x) && decide (x ≤ 1)) = true then 1 else 0) : Nat) = 1 := by
  obtain ⟨h0, h1⟩ := hx
  by_cases hA : x < 1/5
  · have n2 : ¬ (1:ℚ)/5 ≤ x := not_le.mpr hA
    have n3 : ¬ (2:ℚ)/5 ≤ x := not_le.mpr (hA.trans (by norm_num))
    have n4 : ¬ (3:ℚ)/5 ≤ x := not_le.mpr (hA.trans (by norm_num))
    have n5 : ¬ (4:ℚ)/5 ≤ x := not_le.mpr (hA.trans (by norm_num))
    norm_num [h0, hA, n2, n3, n4, n5]
  · by_cases hB : x < 2/5
    · have p2 : (1:ℚ)/5 ≤ x := not_lt.mp hA
      have n3 : ¬ (2:ℚ)/5 ≤ x := not_le.mpr hB
      have n4 : ¬ (3:ℚ)/5 ≤ x := not_le.mpr (hB.trans (by norm_num))
      have n5 : ¬ (4:ℚ)/5 ≤ x := not_le.mpr (hB.trans (by norm_num))
      norm_num [hA, hB, p2, n3, n4, n5, h0]
    · by_cases hC : x < 3/5
      · have p3 : (2:ℚ)/5 ≤ x := not_lt.mp hB
        have n4 : ¬ (3:ℚ)/5 ≤ x := not_le.mpr hC
        have n5 : ¬ (4:ℚ)/5 ≤ x := not_le.mpr (hC.trans (by norm_num))
        norm_num [hB, hC, p3, n4, n5, h0, not_lt.mp hA]
      · by_cases hD : x < 4/5
        · have p4 : (3:ℚ)/5 ≤ x := not_lt.mp hC
          have n5 : ¬ (4:ℚ)/5 ≤ x := not_le.mpr hD
          norm_num [hC, hD, p4, n5, h0, not_lt.mp hA, not_lt.mp hB]
        · have p5 : (4:ℚ)/5 ≤ x := not_lt.mp hD
          norm_num [hD, p5, h1, h0, not_lt.mp hA, not_lt.mp hB, not_lt.mp hC]

lemma cpDistribution_total (scores : List ℚ) (h : ∀ s ∈ scores, 0 ≤ s ∧ s ≤ 1) :
    ((cpDistribution scores).map Prod.snd).sum = scores.length := by
  induction scores with
  | nil => rfl
  | cons x xs ih =>
    have hx := h x (by simp)
    have ihh := ih (fun s hs => h s (by simp [hs]))
    have hone := bucket_indicators_one x hx
    simp only [cpDistribution, List.map_cons, List.map_nil, List.sum_cons, List.sum_nil,
      List.countP_cons, List.length_cons] at ihh ⊢
    omega

lemma baseline_median_eq (scores : List ℚ) (st : BaselineStats) (hne : scores ≠ [])
    (h : calculate_baseline_stats scores = .ok st) : st.median = spec_median scores := by
  cases scores with
  | nil => exact absurd rfl hne
  | cons x xs =>
    simp only [calculate_baseline_stats, pyMinList, pyMaxList, Except.bind, bind, pure,
      Except.pure, Except.ok.injEq] at h
    subst h
    show (if (x :: xs).length % 2 = 0 ∧ (x :: xs).length > 1 then _ else _) = spec_median (x :: xs)
    rw [spec_median]
    by_cases hpar : (x :: xs).length % 2 = 1
    · have hnc : ¬ ((x :: xs).length % 2 = 0 ∧ (x :: xs).length > 1) := by omega
      rw [if_neg hnc, if_pos hpar]
    · have hc : (x :: xs).length % 2 = 0 ∧ (x :: xs).length > 1 := by
        have : (x :: xs).length = xs.length + 1 := rfl
        omega
      rw [if_pos hc, if_neg hpar]

/-- The statistics record of the five-score scenario. -/
def c8_scenario_stats : BaselineStats :=
  { average := 11/25, median := 2/5, min := 0, max := 1, count := 5,
    distribution := [("0.0-0.2", 1), ("0.2-0.4", 1), ("0.4-0.6", 1),
                     ("0.6-0.8", 1), ("0.8-1.0", 1)] }

/-- C8: over every non-empty score list the baseline median equals the
standard even/odd midpoint rule over the sorted scores, the five width-0.2
buckets (final one closed at 1.0) jointly count every in-range score exactly
once, and the five-score scenario yields median 0.4 with one score in every
bucket. -/
theorem calculate_baseline_cp_stats :
  (∀ (scores : List ℚ) (st : BaselineStats), scores ≠ [] →
    calculate_baseline_stats scores = .ok st →
    st.median = spec_median scores ∧
    ((∀ s ∈ scores, 0 ≤ s ∧ s ≤ 1) →
      (st.distribution.map Prod.snd).sum = scores.length)) ∧
  calculate_baseline_stats [0, 1/5, 2/5, 3/5, 1] = .ok c8_scenario_stats := by
  constructor
  · intro scores st hne h
    refine ⟨baseline_median_eq scores st hne h, ?_⟩
    intro hrange
    have hdist : st.distribution = cpDistribution scores := by
      cases scores with
      | nil => exact absurd rfl hne
      | cons x xs =>
        simp only [calculate_baseline_stats, pyMinList, pyMaxList, Except.bind, bind, pure,
          Except.pure, Except.ok.injEq] at h
        subst h
        rfl
    rw [hdist]
    exact cpDistribution_total scores hrange
  · norm_num [calculate_baseline_stats, pySort, insertLe, pyMinList, pyMaxList,
      cpDistribution, c8_scenario_stats, List.countP_cons, List.countP_nil,
      List.foldl_cons, List.foldl_nil, bind, Except.bind, pure, Except.pure]

/-- Witness for C8: the general statement applied at the scenario input. -/
theorem calculate_baseline_cp_stats_witness :
  spec_median [0, 1/5, 2/5, 3/5, 1] = 2/5 ∧
  ((c8_scenario_stats.distribution.map Prod.snd).sum
      = ([0, 1/5, 2/5, 3/5, 1] : List ℚ).length) := by
  have h2 := calculate_baseline_cp_stats.1 [0, 1/5, 2/5, 3/5, 1] _ (by simp)
    calculate_baseline_cp_stats.2
  exact ⟨h2.1.symm, h2.2 (by norm_num)⟩

/- C6 support: invariants of the cluster-organisation loop -/

lemma lookup_none_forall (gs : List (Nat × List Nat)) (l : Nat) (h : gs.lookup l = none) :
    ∀ p ∈ gs, p.1 ≠ l := by
  induction gs with
  | nil => simp
  | cons q rest ih =>
    obtain ⟨k, v⟩ := q
    intro p hp
    by_cases hk : l == k
    · simp [List.lookup, hk] at h
    · have hrest : rest.lookup l = none := by simpa [List.lookup, hk] using h
      rcases List.mem_cons.mp hp with rfl | hmem
      · intro hcon
        simp at hcon
        exact hk (by simp [hcon])
      · exact ih hrest p hmem

lemma add_to_clusters_keys_nodup (gs : List (Nat × List Nat)) (l i : Nat)
    (h : (gs.map Prod.fst).Nodup) : ((add_to_clusters gs l i).map Prod.fst).Nodup := by
  unfold add_to_clusters
  by_cases hs : (gs.lookup l).isSome = true
  · rw [if_pos hs]
    have hkeys : (gs.map (fun p => if p.1 = l then (p.1, p.2 ++ [i]) else p)).map Prod.fst
        = gs.map Prod.fst := by
      rw [List.map_map]
      apply List.map_congr_left
      intro p _
      by_cases hp : p.1 = l <;> simp [hp]
    rw [hkeys]
    exact h
  · rw [if_neg hs]
    have hnone : gs.lookup l = none := Option.not_isSome_iff_eq_none.mp hs
    rw [List.map_append]
    rw [List.nodup_append]
    refine ⟨h, by simp, ?_⟩
    intro a ha hb
    have hb2 : a = l := by simpa using hb
    rcases List.mem_map.mp ha with ⟨p, hp, rfl⟩
    exact lookup_none_forall gs l hnone p hp (hb2)

lemma add_to_clusters_inv (Q : Nat → Nat → Prop) (gs : List (Nat × List Nat)) (l i : Nat)
    (hg : ∀ p ∈ gs, ∀ j ∈ p.2, Q j p.1) (hq : Q i l) :
    ∀ p ∈ add_to_clusters gs l i, ∀ j ∈ p.2, Q j p.1 := by
  unfold add_to_clusters
  by_cases hs : (gs.lookup l).isSome = true
  · rw [if_pos hs]
    intro p hp j hj
    rcases List.mem_map.mp hp with ⟨q, hq', heq⟩
    by_cases hql : q.1 = l
    · rw [if_pos hql] at heq
      subst heq
      rcases List.mem_append.mp hj with hj1 | hj2
      · exact hg q hq' j hj1
      · have hji : j = i := by simpa using hj2
        subst hji
        show Q j q.1
        rw [hql]
        exact hq
    · rw [if_neg hql] at heq
      subst heq
      exact hg q hq' j hj
  · rw [if_neg hs]
    intro p hp j hj
    rcases List.mem_append.mp hp with hp1 | hp2
    · exact hg p hp1 j hj
    · have hpe : p = (l, [i]) := by simpa using hp2
      subst hpe
      have hji : j = i := by simpa using hj
      subst hji
      exact hq

lemma cluster_fold_inv (Q : Nat → Nat → Prop) :
    ∀ (pairs : List (Nat × Nat)) (gs : List (Nat × List Nat)),
      (gs.map Prod.fst).Nodup →
      (∀ p ∈ gs, ∀ j ∈ p.2, Q j p.1) →
      (∀ q ∈ pairs, Q q.1 q.2) →
      (((pairs.foldl (fun cs p => add_to_clusters cs p.2 p.1) gs).map Prod.fst).Nodup ∧
       ∀ p ∈ pairs.foldl (fun cs p => add_to_clusters cs p.2 p.1) gs, ∀ j ∈ p.2, Q j p.1) := by
  intro pairs
  induction pairs with
  | nil =>
    intro gs h1 h2 _
    exact ⟨h1, h2⟩
  | cons a rest ih =>
    intro gs h1 h2 h3
    rw [List.foldl_cons]
    exact ih (add_to_clusters gs a.2 a.1)
      (add_to_clusters_keys_nodup gs a.2 a.1 h1)
      (add_to_clusters_inv Q gs a.2 a.1 h2 (h3 a (by simp)))
      (fun q hq => h3 q (by simp [hq]))

lemma group_by_label_props (labels : List Nat) :
    ((group_by_label labels).map Prod.fst).Nodup ∧
    ∀ p ∈ group_by_label labels, ∀ j ∈ p.2, labels[j]? = some p.1 := by
  exact cluster_fold_inv (fun j l => labels[j]? = some l) labels.enum []
    (by simp) (by simp) (fun q hq => List.mem_enum_iff_getElem?.mp hq)

lemma nodup_keys_entry_unique (gs : List (Nat × List Nat))
    (h : (gs.map Prod.fst).Nodup) :
    ∀ {l g g2}, (l, g) ∈ gs → (l, g2) ∈ gs → g = g2 := by
  induction gs with
  | nil =>
    intro l g g2 h1 _
    simp at h1
  | cons q rest ih =>
    intro l g g2 h1 h2
    rw [List.map_cons, List.nodup_cons] at h
    rcases List.mem_cons.mp h1 with rfl | hm1
    · rcases List.mem_cons.mp h2 with heq2 | hm2
      · have := congrArg Prod.snd heq2
        simpa using this.symm
      · exfalso
        exact h.1 (by simpa using List.mem_map_of_mem Prod.fst hm2)
    · rcases List.mem_cons.mp h2 with heq2 | hm2
      · exfalso
        rw [← heq2] at h
        exact h.1 (by simpa using List.mem_map_of_mem Prod.fst hm1)
      · exact ih h.2 hm1 hm2

lemma group_by_label_pairwise (labels : List Nat) :
    (group_by_label labels).Pairwise (fun p q => ∀ j ∈ p.2, j ∉ q.2) := by
  obtain ⟨hk, hmem⟩ := group_by_label_props labels
  have hne : (group_by_label labels).Pairwise (fun p q => p.1 ≠ q.1) :=
    List.pairwise_map.mp hk
  refine hne.imp_of_mem ?_
  intro a b ha hb hab j hja hjb
  have h1 := hmem a ha j hja
  have h2 := hmem b hb j hjb
  rw [h1] at h2
  exact hab (Option.some.inj h2)

/-- C6: every emitted Cluster record has frequency at least min_size and
frequency equal to its member count, member index lists of distinct records
are disjoint, and a label group below min_size yields no record with that
cluster id. -/
theorem cluster_library_invariants (labels : List Nat) (min_size : Nat) (seq_lens : List Nat) :
  (∀ c ∈ build_behavioral_library_entries labels min_size seq_lens,
     min_size ≤ c.frequency ∧ c.frequency = c.sequence_indices.length) ∧
  (build_behavioral_library_entries labels min_size seq_lens).Pairwise
     (fun c c2 => ∀ i ∈ c.sequence_indices, i ∉ c2.sequence_indices) ∧
  (∀ l g, (l, g) ∈ group_by_label labels → g.length < min_size →
     ∀ c ∈ build_behavioral_library_entries labels min_size seq_lens, c.cluster_id ≠ l) := by
  obtain ⟨hk, hmem⟩ := group_by_label_props labels
  refine ⟨?_, ?_, ?_⟩
  · intro c hc
    rcases List.mem_map.mp hc with ⟨p, hp, rfl⟩
    have hf := List.mem_filter.mp hp
    exact ⟨by simpa using hf.2, rfl⟩
  · have hpair := group_by_label_pairwise labels
    have hfil : ((group_by_label labels).filter
        (fun p => decide (min_size ≤ p.2.length))).Pairwise
        (fun p q => ∀ j ∈ p.2, j ∉ q.2) :=
      hpair.sublist (List.filter_sublist _)
    exact List.pairwise_map.mpr hfil
  · intro l g hg hlen c hc
    rcases List.mem_map.mp hc with ⟨p, hp, rfl⟩
    obtain ⟨p1, p2⟩ := p
    intro hcid
    have hpl : p1 = l := hcid
    subst hpl
    have hf := List.mem_filter.mp hp
    have hp2 : min_size ≤ p2.length := by simpa using hf.2
    have heq : p2 = g := nodup_keys_entry_unique _ hk hf.1 hg
    rw [heq] at hp2
    omega

/-- Witness for C6 at a concrete label assignment. -/
theorem cluster_library_invariants_witness :
  (∀ c ∈ build_behavioral_library_entries [0, 0, 0, 1] 3 [2, 2, 2, 5],
     3 ≤ c.frequency ∧ c.frequency = c.sequence_indices.length) ∧
  (build_behavioral_library_entries [0, 0, 0, 1] 3 [2, 2, 2, 5]).Pairwise
     (fun c c2 => ∀ i ∈ c.sequence_indices, i ∉ c2.sequence_indices) := by
  have h := cluster_library_invariants [0, 0, 0, 1] 3 [2, 2, 2, 5]
  exact ⟨h.1, h.2.1⟩

/- C2 support -/

lemma pad_flat_length (l : List ℚ) (t : Nat) : (pad_flat l t).length = t := by
  simp [pad_flat]
  omega

lemma foldl_max_init_le (l : List Nat) : ∀ a, a ≤ l.foldl Nat.max a := by
  induction l with
  | nil =>
    intro a
    simp
  | cons x xs ih =>
    intro a
    rw [List.foldl_cons]
    exact le_trans (Nat.le_max_left a x) (ih (Nat.max a x))

lemma mem_le_foldl_max (l : List Nat) : ∀ a x, x ∈ l → x ≤ l.foldl Nat.max a := by
  induction l with
  | nil =>
    intro a x hx
    simp at hx
  | cons y ys ih =>
    intro a x hx
    rw [List.foldl_cons]
    rcases List.mem_cons.mp hx with rfl | hmem
    · exact le_trans (Nat.le_max_right a x) (foldl_max_init_le ys (Nat.max a x))
    · exact ih (Nat.max a y) x hmem

lemma sk_fit_predict_model_contract : SklearnFitPredictContract sk_fit_predict_model := by
  intro data k hne hk hrows
  constructor
  · intro hlt
    simp [sk_fit_predict_model, hlt, isErr]
  · intro hge
    refine ⟨List.replicate data.length 0, ?_, by simp⟩
    simp [sk_fit_predict_model, Nat.not_lt.mpr hge]

lemma cluster_with_kmeans_error
    (fit_predict : List (List ℚ) → Nat → Except String (List Nat))
    (hfp : SklearnFitPredictContract fit_predict)
    (sequences : List (List (List ℚ))) (k : Nat) (h : sequences.length < k) :
    isErr (cluster_with_kmeans fit_predict sequences k) = true := by
  cases sequences with
  | nil => rfl
  | cons s0 rest =>
    cases s0 with
    | nil => rfl
    | cons v0 vs =>
      have h1k : 1 ≤ k := by
        have : 0 < ((v0 :: vs) :: rest).length := by simp
        omega
      by_cases hd : v0.length = 0
      · simp [cluster_with_kmeans, hd, isErr]
      · simp only [cluster_with_kmeans]
        rw [if_neg hd]
        refine (hfp _ k (by simp) h1k ?_).1 ?_
        · intro row hr
          rcases List.mem_map.mp hr with ⟨s, hs, rfl⟩
          rw [pad_flat_length]
          refine Nat.mul_pos ?_ (Nat.pos_of_ne_zero hd)
          have h1 : 1 ≤ (v0 :: vs).length := by simp
          have h2 : (v0 :: vs).length ≤
              (((v0 :: vs) :: rest).map List.length).foldl Nat.max 0 :=
            mem_le_foldl_max _ 0 _ (List.mem_map_of_mem List.length (by simp))
          omega
        · simpa using h

/-- C2 amended: for every pipeline satisfying the scikit-learn validation
contract, requesting more clusters than there are sequences makes the
clustering engine exit with an error (the library raises, main catches and
exits 1), for every batch. -/
theorem cluster_main_rejects_excess_clusters
    (fit_predict : List (List ℚ) → Nat → Except String (List Nat))
    (hfp : SklearnFitPredictContract fit_predict)
    (sequences : List (List (List ℚ))) (n_clusters min_size : Nat)
    (h : sequences.length < n_clusters) :
    isErr (cluster_main fit_predict sequences n_clusters min_size) = true := by
  have he := cluster_with_kmeans_error fit_predict hfp sequences n_clusters h
  unfold cluster_main
  cases hres : cluster_with_kmeans fit_predict sequences n_clusters with
  | error e =>
    rfl
  | ok labels =>
    rw [hres] at he
    simp [isErr] at he

/-- A one-vector sequence, duplicated to form a degenerate batch. -/
def c2_seq : List (List ℚ) := [[1]]

/-- C2 counterexample: a batch of two identical sequences (one distinct
sequence) with two requested clusters is clustered without any error: no
ClusteringInputError exists and the fewer-than-2-distinct-sequences condition
is never checked. -/
theorem cluster_main_not_rejecting_duplicate_batch :
  SklearnFitPredictContract sk_fit_predict_model ∧
  [c2_seq, c2_seq].dedup = [c2_seq] ∧
  cluster_main sk_fit_predict_model [c2_seq, c2_seq] 2 3 =
    .ok { n_clusters := 2, min_size := 3, total_sequences := 2, clusters_found := 0,
          cluster_assignments := [0, 0], behavioral_library := [] } := by
  refine ⟨sk_fit_predict_model_contract, by simp, rfl⟩

/-- Witness for the amended C2: a batch of 2 sequences with 5 requested
clusters exits with an error. -/
theorem cluster_main_rejects_excess_clusters_witness :
  isErr (cluster_main sk_fit_predict_model [c2_seq, c2_seq] 5 3) = true :=
  cluster_main_rejects_excess_clusters sk_fit_predict_model sk_fit_predict_model_contract
    [c2_seq, c2_seq] 5 3 (by simp)

end CTel
